import Mathlib

/-!
Verification of the helpdesk record-management engine: a shallow embedding of
the ticket/account persistence layer (`core/storage.py`), the account
directory (`core/auth.py`), the ticket ledger (`core/tickets.py`), the text
sanitizer (`core/validation.py`) and the record models
(`models/ticket.py`, `models/user.py`), together with proofs of the spec
properties (status state machine, deletion guard, visibility, id
assignment, round-trip serialization, load-time filtering, crash model of
the atomic replace).

Python strings are modelled as Lean `String`, Python `int` as `Int`,
Python dicts of string fields as association lists, and file contents as
optional lists of lines.  `str.strip`, `str.lower`, single-character
`str.replace`, slicing to a maximum length, `str(int)` and `int(str)` are
modelled explicitly below.
-/

/-! ### Python text primitives -/

/-- Whitespace characters removed by Python `str.strip()` (ASCII range). -/
def pyIsSpace (c : Char) : Bool :=
  c = ' ' || c = '\t' || c = '\n' || c = '\r' || c = '\x0b' || c = '\x0c'

/-- Strip leading and trailing whitespace from a character list. -/
def stripChars (l : List Char) : List Char :=
  ((l.dropWhile pyIsSpace).reverse.dropWhile pyIsSpace).reverse

/-- Model of Python `str.strip()`. -/
def pyStrip (s : String) : String := String.mk (stripChars s.data)

/-- Model of Python `str.replace(a, b)` for single-character `a` and `b`. -/
def pyReplaceChar (s : String) (a b : Char) : String :=
  String.mk (s.data.map (fun c => if c = a then b else c))

/-- Model of Python `str.lower()` (ASCII case folding). -/
def pyLower (s : String) : String := String.mk (s.data.map Char.toLower)

/-- Model of Python slicing `text[:max_length]` for a nonnegative bound. -/
def pyTruncate (s : String) (max_length : Nat) : String :=
  String.mk (s.data.take max_length)

/-! ### Python integer printing and parsing -/

/-- Numeric value of a decimal digit character. -/
def digitVal (c : Char) : Nat := c.toNat - '0'.toNat

/-- Value of a decimal digit string (most significant digit first). -/
def digitsToNat (l : List Char) : Nat :=
  l.foldl (fun acc c => acc * 10 + digitVal c) 0

/-- True iff the list is a nonempty run of decimal digits. -/
def isDigits (l : List Char) : Bool := !l.isEmpty && l.all Char.isDigit

/-- Fueled decimal digit expansion (most significant digit first). -/
def natToDigitsCore : Nat → Nat → List Char → List Char
  | 0, _, acc => acc
  | fuel + 1, n, acc =>
    let d := Nat.digitChar (n % 10)
    if n / 10 = 0 then d :: acc else natToDigitsCore fuel (n / 10) (d :: acc)

/-- Decimal digits of a natural number, `n + 1` fuel always suffices. -/
def natToDigits (n : Nat) : List Char := natToDigitsCore (n + 1) n []

/-- Model of Python `str(n)` for a natural number. -/
def pyStrNat (n : Nat) : String := String.mk (natToDigits n)

/-- Model of Python `str(i)` for an integer. -/
def pyStrInt (i : Int) : String :=
  if i < 0 then String.mk ('-' :: natToDigits i.natAbs) else pyStrNat i.toNat

/-- Sign and digit analysis of Python `int(text)` after stripping. -/
def pyParseIntChars (l : List Char) : Option Int :=
  match l with
  | [] => none
  | c :: rest =>
    if c = '-' then
      if isDigits rest then some (-(digitsToNat rest : Int)) else none
    else if c = '+' then
      if isDigits rest then some ((digitsToNat rest : Int)) else none
    else if isDigits (c :: rest) then some ((digitsToNat (c :: rest) : Int)) else none

/-- Model of Python `int(text)`: strips whitespace, accepts an optional
sign followed by decimal digits, and fails (raises `ValueError`,
modelled as `none`) otherwise. -/
def pyParseInt (s : String) : Option Int := pyParseIntChars (stripChars s.data)

/-! ### Record models (`models/ticket.py`, `models/user.py`) -/

/-- Serialized record: field name to string value, as stored one per line. -/
abbrev Dict := List (String × String)

/-- Model of `data.get(key, "")` on a string-valued record. -/
def dictGet (data : Dict) (key : String) : String :=
  match data.find? (fun kv => kv.1 == key) with
  | some kv => kv.2
  | none => ""

/-- Ticket record, all fields strings as in `models/ticket.py`. -/
structure Ticket where
  id : String
  owner_id : String
  title : String
  description : String
  status : String
  priority : String
  assignee_id : String
  created_at : String
  updated_at : String
deriving DecidableEq

/-- Serialization of a ticket, `Ticket.to_dict`. -/
def Ticket.to_dict (t : Ticket) : Dict :=
  [("id", t.id), ("owner_id", t.owner_id), ("title", t.title),
   ("description", t.description), ("status", t.status),
   ("priority", t.priority), ("assignee_id", t.assignee_id),
   ("created_at", t.created_at), ("updated_at", t.updated_at)]

/-- Parsing of a ticket, `Ticket.from_dict`: missing fields default to "". -/
def Ticket.from_dict (data : Dict) : Ticket :=
  { id := dictGet data "id"
    owner_id := dictGet data "owner_id"
    title := dictGet data "title"
    description := dictGet data "description"
    status := dictGet data "status"
    priority := dictGet data "priority"
    assignee_id := dictGet data "assignee_id"
    created_at := dictGet data "created_at"
    updated_at := dictGet data "updated_at" }

/-- Account record, all fields strings as in `models/user.py`. -/
structure User where
  id : String
  username : String
  password_hash : String
  role : String
  created_at : String
  updated_at : String
deriving DecidableEq

/-- Serialization of an account, `User.to_dict`. -/
def User.to_dict (u : User) : Dict :=
  [("id", u.id), ("username", u.username), ("password_hash", u.password_hash),
   ("role", u.role), ("created_at", u.created_at), ("updated_at", u.updated_at)]

/-- Parsing of an account, `User.from_dict`: missing fields default to "". -/
def User.from_dict (data : Dict) : User :=
  { id := dictGet data "id"
    username := dictGet data "username"
    password_hash := dictGet data "password_hash"
    role := dictGet data "role"
    created_at := dictGet data "created_at"
    updated_at := dictGet data "updated_at" }

/-! ### Record store (`core/storage.py`) -/

/-- Model of `read_json_lines`: a missing file (`none`) yields no records;
otherwise each line is stripped, empty lines are skipped, and lines that
fail to parse as a record (`parse` returns `none`) are skipped. -/
def read_json_lines {R : Type} (parse : String → Option R)
    (file : Option (List String)) : List R :=
  match file with
  | none => []
  | some lines =>
    lines.filterMap (fun line =>
      let l := pyStrip line
      if l = "" then none else parse l)

/-- File-system state around one target path: the primary file and its
temporary sibling `path + ".tmp"`, each either absent or holding content. -/
structure FS (α : Type) where
  primary : Option α
  temp : Option α
deriving DecidableEq

/-- First step of `write_json_lines`: write the records to the temp file. -/
def writeTempStep {α : Type} (records : α) (fs : FS α) : FS α :=
  { fs with temp := some records }

/-- Second step of `write_json_lines`: `if os.path.exists(path): os.remove(path)`. -/
def removePrimaryStep {α : Type} (fs : FS α) : FS α :=
  if fs.primary.isSome then { fs with primary := none } else fs

/-- Third step of `write_json_lines`: `os.rename(temp_path, path)`. -/
def renameStep {α : Type} (fs : FS α) : FS α :=
  { primary := fs.temp, temp := none }

/-- Model of `write_json_lines`: write temp, remove pre-existing primary,
rename temp onto the primary path. -/
def write_json_lines {α : Type} (records : α) (fs : FS α) : FS α :=
  renameStep (removePrimaryStep (writeTempStep records fs))

/-- States observable if the process crashes at any point during
`write_json_lines records` started from `fs`: before anything happened,
mid-way through writing the temp file (any content at the temp path, the
primary untouched), after the temp write, after the removal of the
pre-existing primary, or after the final rename. -/
inductive WriteCrash {α : Type} (records : α) (fs : FS α) : FS α → Prop
  | start : WriteCrash records fs fs
  | midTemp (piece : α) : WriteCrash records fs { fs with temp := some piece }
  | afterTemp : WriteCrash records fs (writeTempStep records fs)
  | afterRemove : WriteCrash records fs (removePrimaryStep (writeTempStep records fs))
  | finished : WriteCrash records fs (write_json_lines records fs)

/-! ### Ticket ledger (`core/tickets.py`) -/

/-- Valid ticket states, `STATUS_VALUES`. -/
def STATUS_VALUES : List String := ["open", "in_progress", "closed"]

/-- Valid ticket priorities, `PRIORITY_VALUES`. -/
def PRIORITY_VALUES : List String := ["low", "medium", "high"]

/-- Model of `is_valid_status`. -/
def is_valid_status (status : String) : Bool := STATUS_VALUES.contains status

/-- Model of `is_valid_priority`. -/
def is_valid_priority (priority : String) : Bool := PRIORITY_VALUES.contains priority

/-- Model of `_load_tickets` on the records read from the file: each record
becomes a `Ticket` via `from_dict` and is kept only when the required
fields `id`, `owner_id` and `title` are non-empty (Python truthiness of
the string fields). -/
def _load_tickets (records : List Dict) : List Ticket :=
  records.filterMap (fun record =>
    let ticket := Ticket.from_dict record
    if ticket.id != "" && ticket.owner_id != "" && ticket.title != ""
    then some ticket else none)

/-- Records persisted by `_save_tickets`: the full serialized list. -/
def _save_tickets_records (tickets : List Ticket) : List Dict :=
  tickets.map Ticket.to_dict

/-- Model of `_save_tickets`: serialize all tickets and atomically rewrite
the backing file. -/
def _save_tickets (tickets : List Ticket) (fs : FS (List Dict)) : FS (List Dict) :=
  write_json_lines (_save_tickets_records tickets) fs

/-- Fold computing the running maximum numeric id (ids that fail to parse
as integers are skipped), starting from `max_id = 0`, as in
`_next_ticket_id`. -/
def max_numeric_id (tickets : List Ticket) : Int :=
  tickets.foldl (fun max_id t =>
    match pyParseInt t.id with
    | some n => if n > max_id then n else max_id
    | none => max_id) 0

/-- Model of `_next_ticket_id`: `"1"` for an empty store, otherwise the
string form of the maximum numeric id plus one. -/
def _next_ticket_id (tickets : List Ticket) : String :=
  if tickets.isEmpty then "1" else pyStrInt (max_numeric_id tickets + 1)

/-- Model of `_find_ticket_by_id`: first ticket with the given id. -/
def _find_ticket_by_id (ticket_id : String) (tickets : List Ticket) : Option Ticket :=
  tickets.find? (fun t => t.id == ticket_id)

/-- Model of `sanitize_text_field`: strip, collapse newlines and carriage
returns to spaces, hard-truncate to `max_length`. -/
def sanitize_text_field (text : String) (max_length : Nat) : String :=
  let t := pyStrip text
  let t2 := pyReplaceChar (pyReplaceChar t '\n' ' ') '\r' ' '
  if t2.length > max_length then pyTruncate t2 max_length else t2

/-- Model of the validation-and-construction path of `create_ticket`:
sanitize title and description, check their lengths, normalize and check
the priority, then build the new ticket over the loaded store.  The
interactive prompts and the save call are external; `now` stands for the
timestamp.  `none` models an early return on a validation error. -/
def create_ticket (current_user : User)
    (title_input description_input priority_input now : String)
    (tickets : List Ticket) : Option Ticket :=
  let title := sanitize_text_field title_input 100
  if title = "" || title.length < 3 then none
  else
    let description := sanitize_text_field description_input 500
    if description = "" || description.length < 3 then none
    else
      let priority := pyLower (pyStrip priority_input)
      if !(is_valid_priority priority) then none
      else some
        { id := _next_ticket_id tickets
          owner_id := current_user.id
          title := title
          description := description
          status := "open"
          priority := priority
          assignee_id := ""
          created_at := now
          updated_at := now }

/-- One successful create appends the new ticket to the store
(`tickets.append(new_ticket)` before `_save_tickets`). -/
def create_and_store (current_user : User)
    (title_input description_input priority_input now : String)
    (tickets : List Ticket) : Option (Ticket × List Ticket) :=
  match create_ticket current_user title_input description_input priority_input now tickets with
  | none => none
  | some t => some (t, tickets ++ [t])

/-- Ids handed out by `n` consecutive creates with the same (valid)
inputs, each committed to the store before the next. -/
def assigned_ids (current_user : User)
    (title_input description_input priority_input now : String) :
    Nat → List Ticket → List String
  | 0, _ => []
  | n + 1, tickets =>
    match create_and_store current_user title_input description_input priority_input now tickets with
    | none => []
    | some (t, tickets2) =>
      t.id :: assigned_ids current_user title_input description_input priority_input now n tickets2

/-- Model of `list_tickets`: a requester with role `user` sees only their
own tickets; anyone else (the agent path) sees the full list. -/
def list_tickets (current_user : User) (tickets : List Ticket) : List Ticket :=
  if current_user.role == "user" then
    tickets.filter (fun t => t.owner_id == current_user.id)
  else tickets

/-- Outcome of one requested status edit inside `update_ticket`. -/
inductive StatusEditOutcome where
  | invalidStatus
  | applied
  | alreadySet
  | closedRejected
  | illegalRejected
deriving DecidableEq

/-- Model of the status-edit branch of `update_ticket` (option 4): the
raw input is stripped and lowercased, checked against the status enum,
then run through the transition checks in source order — `open` may move
to `in_progress` or `closed`, `in_progress` may move to `closed`,
requesting the current status is reported as a no-op, a `closed` ticket
is reported as non-reopenable, and anything else is an illegal
transition.  Only an applied edit changes the ticket. -/
def update_status_edit (ticket : Ticket) (input : String) :
    StatusEditOutcome × Ticket :=
  let new_status := pyLower (pyStrip input)
  if !(is_valid_status new_status) then (.invalidStatus, ticket)
  else if ticket.status = "open" && (new_status = "in_progress" || new_status = "closed") then
    (.applied, { ticket with status := new_status })
  else if ticket.status = "in_progress" && new_status = "closed" then
    (.applied, { ticket with status := new_status })
  else if ticket.status = new_status then (.alreadySet, ticket)
  else if ticket.status = "closed" then (.closedRejected, ticket)
  else (.illegalRejected, ticket)

/-- Model of the title-edit branch of `update_ticket` (option 1): the
sanitized input is accepted only when non-empty and at least 3
characters; the boolean is the `changes_made` flag for this edit. -/
def update_title_edit (ticket : Ticket) (input : String) : Bool × Ticket :=
  let new_title := sanitize_text_field input 100
  if new_title != "" && new_title.length ≥ 3 then
    (true, { ticket with title := new_title })
  else (false, ticket)

/-- Model of the description-edit branch of `update_ticket` (option 2). -/
def update_description_edit (ticket : Ticket) (input : String) : Bool × Ticket :=
  let new_description := sanitize_text_field input 500
  if new_description != "" && new_description.length ≥ 3 then
    (true, { ticket with description := new_description })
  else (false, ticket)

/-- Result of `delete_ticket`. -/
inductive DeleteResult where
  | success
  | notFound
  | forbidden
  | preconditionFailed
  | cancelled
deriving DecidableEq

/-- Model of `delete_ticket`: the agent-role gate runs before the lookup,
then the ticket must exist, must be `closed`, and the interactive
confirmation (`confirm` is the raw answer, stripped and lowercased, must
be `"s"`) must pass; only then are all tickets with the requested id
dropped and the store persisted.  Every other path leaves the store
unchanged. -/
def delete_ticket (current_user : User) (ticket_id : String)
    (confirm : String) (tickets : List Ticket) : DeleteResult × List Ticket :=
  if current_user.role != "agent" then (.forbidden, tickets)
  else
    match _find_ticket_by_id ticket_id tickets with
    | none => (.notFound, tickets)
    | some ticket =>
      if ticket.status != "closed" then (.preconditionFailed, tickets)
      else if pyLower (pyStrip confirm) != "s" then (.cancelled, tickets)
      else (.success, tickets.filter (fun t => t.id != ticket_id))

/-! ### Account directory (`core/auth.py`, `core/security.py`) -/

/-- Model of `_load_users`: each record becomes a `User` via `from_dict`
and is kept only when `id`, `username` and `password_hash` are
non-empty. -/
def _load_users (records : List Dict) : List User :=
  records.filterMap (fun record =>
    let user := User.from_dict record
    if user.id != "" && user.username != "" && user.password_hash != ""
    then some user else none)

/-- Records persisted by `_save_users`: the full serialized list. -/
def _save_users_records (users : List User) : List Dict :=
  users.map User.to_dict

/-- Fold computing the running maximum numeric user id, as in
`_next_user_id`. -/
def max_numeric_user_id (users : List User) : Int :=
  users.foldl (fun max_id u =>
    match pyParseInt u.id with
    | some n => if n > max_id then n else max_id
    | none => max_id) 0

/-- Model of `_next_user_id`. -/
def _next_user_id (users : List User) : String :=
  if users.isEmpty then "1" else pyStrInt (max_numeric_user_id users + 1)

/-- Model of `find_user_by_username`: first account with that username. -/
def find_user_by_username (username : String) (users : List User) : Option User :=
  users.find? (fun u => u.username == username)

/-- Model of `verify_password` over an abstract digest function `hash`
standing for SHA-256: true iff `hash password` equals the stored digest. -/
def verify_password (hash : String → String) (password password_hash : String) : Bool :=
  hash password == password_hash

/-- Model of `login_user`: load the accounts, find the first exact
username match, then verify the password digest; `none` both when the
username is unknown and when the password is wrong. -/
def login_user (hash : String → String) (username password : String)
    (users : List User) : Option User :=
  match find_user_by_username username users with
  | none => none
  | some user =>
    if !(verify_password hash password user.password_hash) then none
    else some user

/-! ### Sample records used to instantiate the theorems -/

/-- Sample requester with role `user`. -/
def sampleUser : User :=
  { id := "1", username := "alice", password_hash := "h1", role := "user",
    created_at := "t0", updated_at := "t0" }

/-- Sample requester with role `agent`. -/
def sampleAgent : User :=
  { id := "9", username := "bob", password_hash := "h2", role := "agent",
    created_at := "t0", updated_at := "t0" }

/-- Sample open ticket owned by `sampleUser`. -/
def sampleTicketOpen : Ticket :=
  { id := "1", owner_id := "1", title := "Printer broken",
    description := "It will not turn on", status := "open", priority := "high",
    assignee_id := "", created_at := "t0", updated_at := "t0" }

/-- Sample closed ticket owned by `sampleUser`. -/
def sampleTicketClosed : Ticket :=
  { id := "2", owner_id := "1", title := "Monitor flickers",
    description := "Screen goes dark", status := "closed", priority := "low",
    assignee_id := "9", created_at := "t0", updated_at := "t0" }

/-- Sample open ticket owned by another account. -/
def sampleTicketOther : Ticket :=
  { id := "3", owner_id := "2", title := "Mouse unresponsive",
    description := "Cursor frozen", status := "open", priority := "medium",
    assignee_id := "", created_at := "t0", updated_at := "t0" }

/-- Sample account whose digest does not match the probe password. -/
def dupUserA : User :=
  { id := "1", username := "alice", password_hash := "q", role := "user",
    created_at := "t0", updated_at := "t0" }

/-- Sample second account sharing the same username, digest matching. -/
def dupUserB : User :=
  { id := "2", username := "alice", password_hash := "p", role := "user",
    created_at := "t0", updated_at := "t0" }

/-- Sample ticket whose id parses as a negative integer. -/
def negIdTicket : Ticket :=
  { id := "-5", owner_id := "1", title := "abc", description := "abcd",
    status := "open", priority := "low", assignee_id := "",
    created_at := "t0", updated_at := "t0" }

/-! ### Helper lemmas: decimal digits -/

theorem natToDigitsCore_append (fuel : Nat) :
    ∀ n acc, natToDigitsCore fuel n acc = natToDigitsCore fuel n [] ++ acc := by
  induction fuel with
  | zero => intro n acc; simp [natToDigitsCore]
  | succ fuel ih =>
    intro n acc
    by_cases h : n / 10 = 0
    · simp [natToDigitsCore, h]
    · simp only [natToDigitsCore, h, if_false]
      rw [ih (n / 10) (Nat.digitChar (n % 10) :: acc),
        ih (n / 10) [Nat.digitChar (n % 10)]]
      simp

theorem natToDigitsCore_fuel (f₁ : Nat) :
    ∀ f₂ n acc, n < f₁ → n < f₂ →
      natToDigitsCore f₁ n acc = natToDigitsCore f₂ n acc := by
  induction f₁ with
  | zero => intro f₂ n acc h₁ h₂; omega
  | succ f₁ ih =>
    intro f₂ n acc h₁ h₂
    cases f₂ with
    | zero => omega
    | succ g =>
      by_cases h : n / 10 = 0
      · simp [natToDigitsCore, h]
      · simp only [natToDigitsCore, h, if_false]
        exact ih g (n / 10) _ (by omega) (by omega)

theorem natToDigits_lt (n : Nat) (h : n < 10) :
    natToDigits n = [Nat.digitChar n] := by
  have h10 : n / 10 = 0 := Nat.div_eq_of_lt h
  have hm : n % 10 = n := Nat.mod_eq_of_lt h
  simp [natToDigits, natToDigitsCore, h10, hm]

theorem natToDigits_ge (n : Nat) (h : 10 ≤ n) :
    natToDigits n = natToDigits (n / 10) ++ [Nat.digitChar (n % 10)] := by
  have h10 : ¬ n / 10 = 0 := by omega
  calc natToDigits n
      = natToDigitsCore n (n / 10) [Nat.digitChar (n % 10)] := by
        simp [natToDigits, natToDigitsCore, h10]
    _ = natToDigitsCore n (n / 10) [] ++ [Nat.digitChar (n % 10)] :=
        natToDigitsCore_append n (n / 10) _
    _ = natToDigitsCore (n / 10 + 1) (n / 10) [] ++ [Nat.digitChar (n % 10)] := by
        rw [natToDigitsCore_fuel n (n / 10 + 1) (n / 10) [] (by omega) (by omega)]
    _ = natToDigits (n / 10) ++ [Nat.digitChar (n % 10)] := rfl

theorem digitChar_isDigit (d : Nat) (h : d < 10) :
    (Nat.digitChar d).isDigit = true := by
  interval_cases d <;> decide

theorem digitVal_digitChar (d : Nat) (h : d < 10) :
    digitVal (Nat.digitChar d) = d := by
  interval_cases d <;> decide

theorem natToDigits_ne_nil (n : Nat) : natToDigits n ≠ [] := by
  by_cases h : n < 10
  · rw [natToDigits_lt n h]; simp
  · rw [natToDigits_ge n (by omega)]; simp

theorem natToDigits_all_digits (n : Nat) :
    ∀ c ∈ natToDigits n, c.isDigit = true := by
  induction n using Nat.strong_induction_on with
  | _ n ih =>
    by_cases h : n < 10
    · rw [natToDigits_lt n h]
      intro c hc
      simp at hc
      subst hc
      exact digitChar_isDigit n h
    · rw [natToDigits_ge n (by omega)]
      intro c hc
      rw [List.mem_append] at hc
      rcases hc with hc | hc
      · exact ih (n / 10) (by omega) c hc
      · simp at hc
        subst hc
        exact digitChar_isDigit (n % 10) (by omega)

theorem digitsToNat_append (l : List Char) (c : Char) :
    digitsToNat (l ++ [c]) = digitsToNat l * 10 + digitVal c := by
  simp [digitsToNat, List.foldl_append]

theorem digitsToNat_natToDigits (n : Nat) :
    digitsToNat (natToDigits n) = n := by
  induction n using Nat.strong_induction_on with
  | _ n ih =>
    by_cases h : n < 10
    · rw [natToDigits_lt n h]
      simp [digitsToNat, digitVal_digitChar n h]
    · rw [natToDigits_ge n (by omega), digitsToNat_append,
        ih (n / 10) (by omega), digitVal_digitChar (n % 10) (by omega)]
      omega

theorem isDigit_not_space (c : Char) (h : c.isDigit = true) :
    pyIsSpace c = false := by
  by_contra hc
  simp only [Bool.not_eq_false, pyIsSpace, Bool.or_eq_true, decide_eq_true_eq] at hc
  rcases hc with ((((h1 | h1) | h1) | h1) | h1) | h1 <;> subst h1 <;> simp at h

theorem isDigit_ne_minus (c : Char) (h : c.isDigit = true) : ¬ c = '-' := by
  intro hc; subst hc; simp at h

theorem isDigit_ne_plus (c : Char) (h : c.isDigit = true) : ¬ c = '+' := by
  intro hc; subst hc; simp at h

theorem dropWhile_eq_self_of_none (p : Char → Bool) (l : List Char)
    (h : ∀ c ∈ l, p c = false) : l.dropWhile p = l := by
  cases l with
  | nil => rfl
  | cons a l => simp [List.dropWhile, h a (by simp)]

theorem stripChars_of_no_space (l : List Char)
    (h : ∀ c ∈ l, pyIsSpace c = false) : stripChars l = l := by
  unfold stripChars
  rw [dropWhile_eq_self_of_none pyIsSpace l h,
    dropWhile_eq_self_of_none pyIsSpace l.reverse (by simpa using h), List.reverse_reverse]

theorem pyParseInt_pyStrNat (n : Nat) : pyParseInt (pyStrNat n) = some n := by
  have hall := natToDigits_all_digits n
  have hne := natToDigits_ne_nil n
  have hstrip : stripChars (natToDigits n) = natToDigits n :=
    stripChars_of_no_space _ (fun c hc => isDigit_not_space c (hall c hc))
  unfold pyParseInt pyStrNat
  show pyParseIntChars (stripChars (natToDigits n)) = some n
  rw [hstrip]
  obtain ⟨c, rest, hcr⟩ : ∃ c rest, natToDigits n = c :: rest := by
    cases hh : natToDigits n with
    | nil => exact absurd hh hne
    | cons c rest => exact ⟨c, rest, rfl⟩
  rw [hcr]
  have hcd : c.isDigit = true := hall c (by rw [hcr]; simp)
  have hdig : isDigits (c :: rest) = true := by
    simp only [isDigits, List.isEmpty_cons, Bool.not_false, Bool.true_and, List.all_eq_true]
    intro x hx
    exact hall x (by rw [hcr]; exact hx)
  simp only [pyParseIntChars, isDigit_ne_minus c hcd, if_false,
    isDigit_ne_plus c hcd, hdig, if_true]
  rw [← hcr, digitsToNat_natToDigits]
  simp

theorem pyStrInt_ofNat (k : Nat) : pyStrInt ((k : Int) + 1) = pyStrNat (k + 1) := by
  have h1 : ¬ ((k : Int) + 1 < 0) := by omega
  have h2 : ((k : Int) + 1).toNat = k + 1 := by omega
  simp [pyStrInt, h1, h2]

theorem pyParseInt_pyStrInt_ofNat (k : Nat) :
    pyParseInt (pyStrInt ((k : Int) + 1)) = some ((k : Int) + 1) := by
  rw [pyStrInt_ofNat, pyParseInt_pyStrNat]
  simp

/-! ### Helper lemmas: strings and records -/

theorem string_mk_length (l : List Char) : (String.mk l).length = l.length := rfl

theorem dictGet_of_missing (data : Dict) (key : String)
    (h : key ∉ data.map Prod.fst) : dictGet data key = "" := by
  unfold dictGet
  have hfind : data.find? (fun kv => kv.1 == key) = none := by
    rw [List.find?_eq_none]
    intro kv hkv h2
    have hc : kv.1 = key := by simpa using h2
    exact h (by rw [← hc]; exact List.mem_map_of_mem Prod.fst hkv)
  rw [hfind]

/-- C8: for every valid Account and Ticket record (all fields strings),
parsing the serialization yields the original record, and fields missing
from a serialized form are parsed as the empty string rather than
failing. -/
theorem C8_round_trip :
    (∀ t : Ticket, Ticket.from_dict (Ticket.to_dict t) = t) ∧
    (∀ u : User, User.from_dict (User.to_dict u) = u) ∧
    (∀ (data : Dict) (key : String), key ∉ data.map Prod.fst → dictGet data key = "") ∧
    Ticket.from_dict [] =
      { id := "", owner_id := "", title := "", description := "", status := "",
        priority := "", assignee_id := "", created_at := "", updated_at := "" } ∧
    User.from_dict [] =
      { id := "", username := "", password_hash := "", role := "",
        created_at := "", updated_at := "" } :=
  ⟨fun _ => rfl, fun _ => rfl, dictGet_of_missing, rfl, rfl⟩

/-- C8 witness: a key absent from a concrete record reads back as "". -/
theorem C8_round_trip_witness : dictGet [("id", "7")] "title" = "" :=
  C8_round_trip.2.2.1 [("id", "7")] "title" (by decide)

/-- C7: reading a missing file yields no records; otherwise the load
returns, in file order, one record per line whose stripped form is
non-empty and parses, and appending an empty or unparseable line never
changes (in particular never aborts) the load. -/
theorem C7_read_skips_bad_lines {R : Type} (parse : String → Option R) :
    read_json_lines parse none = [] ∧
    (∀ lines, read_json_lines parse (some lines) =
      ((lines.map pyStrip).filter (fun l => l != "")).filterMap parse) ∧
    (∀ lines line, (pyStrip line = "" ∨ parse (pyStrip line) = none) →
      read_json_lines parse (some (lines ++ [line])) =
      read_json_lines parse (some lines)) := by
  have key : ∀ lines, read_json_lines parse (some lines) =
      ((lines.map pyStrip).filter (fun l => l != "")).filterMap parse := by
    intro lines
    induction lines with
    | nil => rfl
    | cons a l ih =>
      simp only [read_json_lines] at ih ⊢
      simp only [List.filterMap_cons, List.map_cons, List.filter_cons]
      by_cases h : pyStrip a = ""
      · simp [h, ih]
      · simp only [h, if_neg h, bne_iff_ne, ne_eq, not_false_eq_true, if_true, ite_true]
        cases hp : parse (pyStrip a) <;> simp [List.filterMap_cons, hp, ih]
  refine ⟨rfl, key, ?_⟩
  intro lines line h
  rw [key, key]
  simp only [List.map_append, List.filter_append, List.filterMap_append, List.map_cons,
    List.map_nil]
  rcases h with h | h
  · simp [List.filter_cons, h]
  · by_cases he : pyStrip line = ""
    · simp [List.filter_cons, he]
    · simp [List.filter_cons, he, List.filterMap_cons, h]

/-- C7 witness: a corrupted trailing line is skipped on a concrete load. -/
theorem C7_read_skips_bad_lines_witness :
    read_json_lines (fun s => if s = "bad" then none else some s)
        (some (["ok"] ++ [" bad "])) =
      read_json_lines (fun s => if s = "bad" then none else some s) (some ["ok"]) :=
  (C7_read_skips_bad_lines (fun s => if s = "bad" then none else some s)).2.2
    ["ok"] " bad " (by right; decide)

/-- C4: a requester with role `user` sees exactly the stored tickets they
own, a requester with role `agent` sees the full store, and in both cases
the result is a sublist of the store (file order, no re-sorting). -/
theorem C4_list_visibility (u : User) (tickets : List Ticket) :
    (u.role = "user" →
      (list_tickets u tickets = tickets.filter (fun t => t.owner_id == u.id) ∧
        ∀ t : Ticket, t ∈ list_tickets u tickets ↔ (t ∈ tickets ∧ t.owner_id = u.id))) ∧
    (u.role = "agent" → list_tickets u tickets = tickets) ∧
    (list_tickets u tickets).Sublist tickets := by
  refine ⟨?_, ?_, ?_⟩
  · intro h
    have hb : (u.role == "user") = true := by simp [h]
    constructor
    · simp [list_tickets, hb]
    · intro t
      simp [list_tickets, hb, List.mem_filter]
  · intro h
    have hb : (u.role == "user") = false := by simp [h]
    simp [list_tickets, hb]
  · unfold list_tickets
    by_cases hb : (u.role == "user") = true
    · simp only [hb, if_true]
      exact List.filter_sublist tickets
    · simp only [Bool.not_eq_true] at hb
      simp only [hb, Bool.false_eq_true, if_false]
      exact List.Sublist.refl tickets

/-- C4 witness: a concrete `user`-role listing filters to the owned ticket. -/
theorem C4_list_visibility_witness :
    list_tickets sampleUser [sampleTicketOpen, sampleTicketOther] = [sampleTicketOpen] := by
  have h := ((C4_list_visibility sampleUser [sampleTicketOpen, sampleTicketOther]).1 rfl).1
  rw [h]
  decide

/-! ### Helper lemmas: load-time filtering -/

theorem load_tickets_fields (records : List Dict) :
    ∀ t ∈ _load_tickets records, t.id ≠ "" ∧ t.owner_id ≠ "" ∧ t.title ≠ "" := by
  intro t ht
  simp only [_load_tickets, List.mem_filterMap] at ht
  obtain ⟨record, hrec, hf⟩ := ht
  by_cases hcond : ((Ticket.from_dict record).id != "" &&
      ((Ticket.from_dict record).owner_id != "" &&
        (Ticket.from_dict record).title != "")) = true
  · rw [if_pos (by simpa [Bool.and_assoc] using hcond)] at hf
    obtain rfl : Ticket.from_dict record = t := by injection hf
    simpa [Bool.and_eq_true, bne_iff_ne] using hcond
  · rw [if_neg (by simpa [Bool.and_assoc] using hcond)] at hf
    cases hf

theorem load_users_fields (records : List Dict) :
    ∀ u ∈ _load_users records, u.id ≠ "" ∧ u.username ≠ "" ∧ u.password_hash ≠ "" := by
  intro u hu
  simp only [_load_users, List.mem_filterMap] at hu
  obtain ⟨record, hrec, hf⟩ := hu
  by_cases hcond : ((User.from_dict record).id != "" &&
      ((User.from_dict record).username != "" &&
        (User.from_dict record).password_hash != "")) = true
  · rw [if_pos (by simpa [Bool.and_assoc] using hcond)] at hf
    obtain rfl : User.from_dict record = u := by injection hf
    simpa [Bool.and_eq_true, bne_iff_ne] using hcond
  · rw [if_neg (by simpa [Bool.and_assoc] using hcond)] at hf
    cases hf

/-- C9: every ticket or account surviving the load has its required
fields non-empty; a record with an empty (or missing, hence empty)
required field is dropped by the load; and the records written back by
the next full-set persist all have non-empty required fields. -/
theorem C9_required_field_invariant (trecords urecords : List Dict) :
    (∀ t ∈ _load_tickets trecords, t.id ≠ "" ∧ t.owner_id ≠ "" ∧ t.title ≠ "") ∧
    (∀ record ∈ trecords,
      (dictGet record "id" = "" ∨ dictGet record "owner_id" = "" ∨
        dictGet record "title" = "") →
      Ticket.from_dict record ∉ _load_tickets trecords) ∧
    (∀ d ∈ _save_tickets_records (_load_tickets trecords),
      dictGet d "id" ≠ "" ∧ dictGet d "owner_id" ≠ "" ∧ dictGet d "title" ≠ "") ∧
    (∀ u ∈ _load_users urecords, u.id ≠ "" ∧ u.username ≠ "" ∧ u.password_hash ≠ "") ∧
    (∀ record ∈ urecords,
      (dictGet record "id" = "" ∨ dictGet record "username" = "" ∨
        dictGet record "password_hash" = "") →
      User.from_dict record ∉ _load_users urecords) ∧
    (∀ d ∈ _save_users_records (_load_users urecords),
      dictGet d "id" ≠ "" ∧ dictGet d "username" ≠ "" ∧ dictGet d "password_hash" ≠ "") := by
  refine ⟨load_tickets_fields trecords, ?_, ?_, load_users_fields urecords, ?_, ?_⟩
  · intro record hrec hbad hmem
    have h := load_tickets_fields trecords (Ticket.from_dict record) hmem
    rcases hbad with hb | hb | hb
    · exact h.1 hb
    · exact h.2.1 hb
    · exact h.2.2 hb
  · intro d hd
    simp only [_save_tickets_records, List.mem_map] at hd
    obtain ⟨t, ht, rfl⟩ := hd
    have h := load_tickets_fields trecords t ht
    exact ⟨h.1, h.2.1, h.2.2⟩
  · intro record hrec hbad hmem
    have h := load_users_fields urecords (User.from_dict record) hmem
    rcases hbad with hb | hb | hb
    · exact h.1 hb
    · exact h.2.1 hb
    · exact h.2.2 hb
  · intro d hd
    simp only [_save_users_records, List.mem_map] at hd
    obtain ⟨u, hu, rfl⟩ := hd
    have h := load_users_fields urecords u hu
    exact ⟨h.1, h.2.1, h.2.2⟩

/-- C9 witness: a concrete well-formed record survives the load with
non-empty required fields. -/
theorem C9_required_field_invariant_witness :
    sampleTicketOpen.id ≠ "" ∧ sampleTicketOpen.owner_id ≠ "" ∧
      sampleTicketOpen.title ≠ "" :=
  (C9_required_field_invariant [sampleTicketOpen.to_dict] []).1
    sampleTicketOpen (by decide)

/-- C1: a requested status edit is applied iff the (current, requested)
pair is one of (open, in_progress), (open, closed), (in_progress,
closed); requesting the current status is reported as the distinct no-op
outcome; every other pair is rejected (as the closed-ticket rejection or
the illegal-transition rejection) and only an applied edit changes the
ticket. -/
theorem C1_status_transition_policy (t : Ticket) (input : String)
    (hv : is_valid_status (pyLower (pyStrip input)) = true) :
    ((update_status_edit t input).1 = StatusEditOutcome.applied ↔
      ((t.status = "open" ∧
          (pyLower (pyStrip input) = "in_progress" ∨ pyLower (pyStrip input) = "closed")) ∨
        (t.status = "in_progress" ∧ pyLower (pyStrip input) = "closed"))) ∧
    ((update_status_edit t input).1 = StatusEditOutcome.applied →
      (update_status_edit t input).2 = { t with status := pyLower (pyStrip input) }) ∧
    ((update_status_edit t input).1 = StatusEditOutcome.alreadySet ↔
      t.status = pyLower (pyStrip input)) ∧
    ((update_status_edit t input).1 ≠ StatusEditOutcome.applied →
      (update_status_edit t input).2 = t) ∧
    ((¬ ((t.status = "open" ∧
          (pyLower (pyStrip input) = "in_progress" ∨ pyLower (pyStrip input) = "closed")) ∨
        (t.status = "in_progress" ∧ pyLower (pyStrip input) = "closed")) ∧
      t.status ≠ pyLower (pyStrip input)) →
      ((update_status_edit t input).1 = StatusEditOutcome.closedRejected ∨
        (update_status_edit t input).1 = StatusEditOutcome.illegalRejected)) := by
  have hvs : pyLower (pyStrip input) = "open" ∨ pyLower (pyStrip input) = "in_progress" ∨
      pyLower (pyStrip input) = "closed" := by
    simpa [is_valid_status, STATUS_VALUES] using hv
  rcases hvs with hns | hns | hns <;>
    by_cases h1 : t.status = "open" <;>
    by_cases h2 : t.status = "in_progress" <;>
    by_cases h3 : t.status = "closed" <;>
    simp_all [update_status_edit, is_valid_status, STATUS_VALUES]

/-- C1 witness: an open ticket accepts the move to in_progress. -/
theorem C1_status_transition_policy_witness :
    (update_status_edit sampleTicketOpen "in_progress").1 = StatusEditOutcome.applied :=
  (C1_status_transition_policy sampleTicketOpen "in_progress" (by decide)).1.mpr (by decide)

/-- C3: delete is forbidden exactly when the requester is not an agent
(decided before the lookup), reports not-found exactly when no ticket has
the id, reports the failed precondition exactly when the found ticket is
not closed; every non-success outcome leaves the store unchanged, and on
success every ticket with the requested id is removed. -/
theorem C3_delete_guards (u : User) (ticket_id confirm : String) (tickets : List Ticket) :
    ((delete_ticket u ticket_id confirm tickets).1 = DeleteResult.forbidden ↔
      u.role ≠ "agent") ∧
    (u.role = "agent" →
      ((delete_ticket u ticket_id confirm tickets).1 = DeleteResult.notFound ↔
        _find_ticket_by_id ticket_id tickets = none)) ∧
    (∀ t : Ticket, u.role = "agent" → _find_ticket_by_id ticket_id tickets = some t →
      ((delete_ticket u ticket_id confirm tickets).1 = DeleteResult.preconditionFailed ↔
        t.status ≠ "closed")) ∧
    ((delete_ticket u ticket_id confirm tickets).1 ≠ DeleteResult.success →
      (delete_ticket u ticket_id confirm tickets).2 = tickets) ∧
    ((delete_ticket u ticket_id confirm tickets).1 = DeleteResult.success →
      ((delete_ticket u ticket_id confirm tickets).2 =
          tickets.filter (fun t => t.id != ticket_id) ∧
        ∀ t ∈ (delete_ticket u ticket_id confirm tickets).2, t.id ≠ ticket_id)) := by
  by_cases hrole : u.role = "agent"
  · cases hfind : _find_ticket_by_id ticket_id tickets with
    | none => simp_all [delete_ticket]
    | some t0 =>
      by_cases hst : t0.status = "closed"
      · by_cases hconf : pyLower (pyStrip confirm) = "s"
        · refine ⟨?_, ?_, ?_, ?_, ?_⟩ <;>
            simp_all [delete_ticket, List.mem_filter]
        · refine ⟨?_, ?_, ?_, ?_, ?_⟩ <;>
            simp_all [delete_ticket]
      · refine ⟨?_, ?_, ?_, ?_, ?_⟩ <;>
          simp_all [delete_ticket]
  · refine ⟨?_, ?_, ?_, ?_, ?_⟩ <;>
      simp_all [delete_ticket]

/-- C3 witness: an agent deleting a closed ticket succeeds and removes it. -/
theorem C3_delete_guards_witness :
    (delete_ticket sampleAgent "2" "s" [sampleTicketOpen, sampleTicketClosed]).2 =
      [sampleTicketOpen] := by
  have h := ((C3_delete_guards sampleAgent "2" "s"
    [sampleTicketOpen, sampleTicketClosed]).2.2.2.2 (by decide)).1
  rw [h]
  decide

/-! ### Helper lemmas: crash states of the atomic replace -/

theorem removePrimaryStep_temp {α : Type} (fs : FS α) :
    (removePrimaryStep fs).temp = fs.temp := by
  unfold removePrimaryStep
  by_cases h : fs.primary.isSome <;> simp [h]

/-- C2 counterexample: starting from a primary file holding the old
content, the crash state reached between the removal of the old file and
the rename is a write-crash state whose primary path holds neither the
old nor the new content — it is missing — refuting the claim that every
crash state keeps the primary at the pre-write or the new content. -/
theorem C2_crash_replace_counterexample :
    WriteCrash ["new"] (FS.mk (some ["old"]) none)
        (FS.mk (none : Option (List String)) (some ["new"])) ∧
      (FS.mk (none : Option (List String)) (some ["new"])).primary ≠
        (FS.mk (some ["old"]) (none : Option (List String))).primary ∧
      (FS.mk (none : Option (List String)) (some ["new"])).primary ≠ some ["new"] ∧
      (FS.mk (none : Option (List String)) (some ["new"])).primary = none := by
  refine ⟨?_, by decide, by decide, rfl⟩
  exact @WriteCrash.afterRemove (List String) ["new"] (FS.mk (some ["old"]) none)

/-- C2 (amended): at every crash point of the full-set write the primary
file is never truncated or partially written — it holds the complete
pre-write content or the complete new content, except in the window
between the removal of the old file and the rename, where the primary is
missing while the complete new content persists at the temporary path. -/
theorem C2_crash_replace (records : List String) (fs s : FS (List String))
    (h : WriteCrash records fs s) :
    s.primary = fs.primary ∨ s.primary = some records ∨
      (s.primary = none ∧ s.temp = some records) := by
  cases h with
  | start => exact Or.inl rfl
  | midTemp piece => exact Or.inl rfl
  | afterTemp => exact Or.inl rfl
  | afterRemove =>
    by_cases hp : fs.primary.isSome
    · right; right
      constructor <;> simp [removePrimaryStep, writeTempStep, hp]
    · left
      simp [removePrimaryStep, writeTempStep, hp]
  | finished =>
    right; left
    simp [write_json_lines, renameStep, removePrimaryStep_temp, writeTempStep]

/-- C2 witness: the state after the temp write still shows the old
primary content. -/
theorem C2_crash_replace_witness :
    (writeTempStep ["new"] (FS.mk (some ["old"]) none)).primary =
        (FS.mk (some ["old"]) (none : Option (List String))).primary ∨
      (writeTempStep ["new"] (FS.mk (some ["old"]) none)).primary = some ["new"] ∨
      ((writeTempStep ["new"] (FS.mk (some ["old"]) none)).primary = none ∧
        (writeTempStep ["new"] (FS.mk (some ["old"]) none)).temp = some ["new"]) :=
  C2_crash_replace ["new"] (FS.mk (some ["old"]) none) _
    (@WriteCrash.afterTemp (List String) ["new"] (FS.mk (some ["old"]) none))

/-! ### Helper lemmas: text sanitization -/

theorem mem_sanitize_data (text : String) (max_length : Nat) (c : Char)
    (hc : c ∈ (sanitize_text_field text max_length).data) :
    ∃ x, c = (fun y => if y = '\r' then ' ' else y)
      ((fun y => if y = '\n' then ' ' else y) x) := by
  unfold sanitize_text_field at hc
  by_cases h : (pyReplaceChar (pyReplaceChar (pyStrip text) '\n' ' ') '\r' ' ').length > max_length
  · rw [if_pos h] at hc
    have hc2 : c ∈ (pyReplaceChar (pyReplaceChar (pyStrip text) '\n' ' ') '\r' ' ').data :=
      List.take_subset max_length _ hc
    simp only [pyReplaceChar, pyStrip, List.mem_map] at hc2
    obtain ⟨y, hy, rfl⟩ := hc2
    obtain ⟨x, hx, rfl⟩ := hy
    exact ⟨x, rfl⟩
  · rw [if_neg h] at hc
    simp only [pyReplaceChar, pyStrip, List.mem_map] at hc
    obtain ⟨y, hy, rfl⟩ := hc
    obtain ⟨x, hx, rfl⟩ := hy
    exact ⟨x, rfl⟩

theorem sanitize_no_newline (text : String) (max_length : Nat) :
    ∀ c ∈ (sanitize_text_field text max_length).data, c ≠ '\n' ∧ c ≠ '\r' := by
  intro c hc
  obtain ⟨x, rfl⟩ := mem_sanitize_data text max_length c hc
  by_cases h1 : x = '\n'
  · simp [h1]
  · by_cases h2 : x = '\r' <;> simp [h1, h2]

theorem sanitize_length_le (text : String) (max_length : Nat) :
    (sanitize_text_field text max_length).length ≤ max_length := by
  unfold sanitize_text_field
  by_cases h : (pyReplaceChar (pyReplaceChar (pyStrip text) '\n' ' ') '\r' ' ').length > max_length
  · rw [if_pos h]
    show ((pyReplaceChar (pyReplaceChar (pyStrip text) '\n' ' ') '\r' ' ').data.take
      max_length).length ≤ max_length
    simp [List.length_take]
  · rw [if_neg h]
    exact Nat.le_of_not_lt h

theorem create_ticket_some (u : User) (ti di pi now : String) (ts : List Ticket)
    (h1 : 3 ≤ (sanitize_text_field ti 100).length)
    (h2 : 3 ≤ (sanitize_text_field di 500).length)
    (h3 : is_valid_priority (pyLower (pyStrip pi)) = true) :
    create_ticket u ti di pi now ts = some
      { id := _next_ticket_id ts, owner_id := u.id,
        title := sanitize_text_field ti 100,
        description := sanitize_text_field di 500, status := "open",
        priority := pyLower (pyStrip pi), assignee_id := "",
        created_at := now, updated_at := now } := by
  have ht : ¬ (sanitize_text_field ti 100 = "") := by
    intro hc
    rw [hc] at h1
    simp at h1
  have hd : ¬ (sanitize_text_field di 500 = "") := by
    intro hc
    rw [hc] at h2
    simp at h2
  simp [create_ticket, ht, hd, h3, Nat.not_lt.mpr h1, Nat.not_lt.mpr h2]

/-- C10: the sanitizer output never exceeds the length bound and holds no
newline or carriage-return character; hence every title and description
accepted by the create path or by a title/description edit is
newline-free and within its limit (100 for title, 500 for
description). -/
theorem C10_sanitized_fields (text : String) (max_length : Nat) :
    ((sanitize_text_field text max_length).length ≤ max_length ∧
      ∀ c ∈ (sanitize_text_field text max_length).data, c ≠ '\n' ∧ c ≠ '\r') ∧
    (∀ (u : User) (ti di pi now : String) (ts : List Ticket) (t : Ticket),
      create_ticket u ti di pi now ts = some t →
      (3 ≤ t.title.length ∧ t.title.length ≤ 100 ∧
        3 ≤ t.description.length ∧ t.description.length ≤ 500) ∧
      (∀ c ∈ t.title.data, c ≠ '\n' ∧ c ≠ '\r') ∧
      (∀ c ∈ t.description.data, c ≠ '\n' ∧ c ≠ '\r')) ∧
    (∀ (t : Ticket) (input : String), (update_title_edit t input).1 = true →
      ((update_title_edit t input).2.title = sanitize_text_field input 100 ∧
        3 ≤ (update_title_edit t input).2.title.length ∧
        (update_title_edit t input).2.title.length ≤ 100)) ∧
    (∀ (t : Ticket) (input : String), (update_description_edit t input).1 = true →
      ((update_description_edit t input).2.description = sanitize_text_field input 500 ∧
        3 ≤ (update_description_edit t input).2.description.length ∧
        (update_description_edit t input).2.description.length ≤ 500)) := by
  refine ⟨⟨sanitize_length_le text max_length, sanitize_no_newline text max_length⟩, ?_, ?_, ?_⟩
  · intro u ti di pi now ts t hsome
    by_cases c1 : 3 ≤ (sanitize_text_field ti 100).length
    · by_cases c2 : 3 ≤ (sanitize_text_field di 500).length
      · by_cases c3 : is_valid_priority (pyLower (pyStrip pi)) = true
        · rw [create_ticket_some u ti di pi now ts c1 c2 c3] at hsome
          obtain rfl : _ = t := by injection hsome
          refine ⟨⟨c1, sanitize_length_le ti 100, c2, sanitize_length_le di 500⟩, ?_, ?_⟩
          · exact sanitize_no_newline ti 100
          · exact sanitize_no_newline di 500
        · simp [create_ticket, c3] at hsome
      · have hc : ((sanitize_text_field di 500).length < 3) := by omega
        by_cases hde : sanitize_text_field di 500 = "" <;>
          simp [create_ticket, hde, hc] at hsome
    · have hc : ((sanitize_text_field ti 100).length < 3) := by omega
      by_cases hte : sanitize_text_field ti 100 = "" <;>
        simp [create_ticket, hte, hc] at hsome
  · intro t input hacc
    simp only [update_title_edit] at hacc ⊢
    split at hacc
    next hcond =>
      rw [if_pos hcond]
      simp only [Bool.and_eq_true, bne_iff_ne, ne_eq, decide_eq_true_eq, ge_iff_le] at hcond
      exact ⟨rfl, hcond.2, sanitize_length_le input 100⟩
    next hcond =>
      simp at hacc
  · intro t input hacc
    simp only [update_description_edit] at hacc ⊢
    split at hacc
    next hcond =>
      rw [if_pos hcond]
      simp only [Bool.and_eq_true, bne_iff_ne, ne_eq, decide_eq_true_eq, ge_iff_le] at hcond
      exact ⟨rfl, hcond.2, sanitize_length_le input 500⟩
    next hcond =>
      simp at hacc

/-- C10 witness: a concrete successful create yields in-bounds fields. -/
theorem C10_sanitized_fields_witness :
    3 ≤ sampleTicketOpen.title.length ∧ sampleTicketOpen.title.length ≤ 100 ∧
      3 ≤ sampleTicketOpen.description.length ∧
      sampleTicketOpen.description.length ≤ 500 :=
  ((C10_sanitized_fields "" 0).2.1 sampleUser "Printer broken" "It will not turn on"
    "high" "t0" [] sampleTicketOpen (by decide)).1

/-- C6 counterexample: with two stored accounts sharing a username, a
password matching the second account's digest still yields `none`,
because only the first username match is checked — so an account matching
both username and digest exists while authenticate returns no account. -/
theorem C6_login_counterexample :
    (∃ u ∈ [dupUserA, dupUserB], u.username = "alice" ∧
      (fun s => s) "p" = u.password_hash) ∧
    login_user (fun s => s) "alice" "p" [dupUserA, dupUserB] = none := by
  constructor
  · exact ⟨dupUserB, by decide, by decide, by decide⟩
  · decide

/-- C6 (amended): provided no two stored accounts share a username (the
account directory's uniqueness invariant), authenticate returns a stored
account iff some stored account matches the username exactly and the
password digest exactly; both an unknown username and a wrong password
yield `none`. -/
theorem C6_login_exact_match (hash : String → String) (username password : String)
    (users : List User)
    (huniq : users.Pairwise (fun a b => a.username ≠ b.username)) :
    (∀ u : User, login_user hash username password users = some u →
      (u ∈ users ∧ u.username = username ∧ hash password = u.password_hash)) ∧
    ((∃ u ∈ users, u.username = username ∧ hash password = u.password_hash) ↔
      (∃ u : User, login_user hash username password users = some u)) := by
  induction users with
  | nil =>
    constructor
    · intro u hu
      simp [login_user, find_user_by_username] at hu
    · simp [login_user, find_user_by_username]
  | cons a l ih =>
    obtain ⟨ha, hl⟩ := List.pairwise_cons.mp huniq
    by_cases hm : a.username = username
    · have hfind : find_user_by_username username (a :: l) = some a := by
        simp [find_user_by_username, List.find?_cons_of_pos, hm]
      by_cases hverify : hash password = a.password_hash
      · have hlogin : login_user hash username password (a :: l) = some a := by
          simp [login_user, hfind, verify_password, hverify]
        constructor
        · intro u hu
          rw [hlogin] at hu
          obtain rfl : a = u := by injection hu
          exact ⟨by simp, hm, hverify⟩
        · constructor
          · intro _
            exact ⟨a, by rw [hlogin]⟩
          · intro _
            exact ⟨a, by simp, hm, hverify⟩
      · have hlogin : login_user hash username password (a :: l) = none := by
          simp [login_user, hfind, verify_password, hverify]
        constructor
        · intro u hu
          rw [hlogin] at hu
          cases hu
        · constructor
          · rintro ⟨u, hu, hun, hh⟩
            rcases List.mem_cons.mp hu with rfl | hmem
            · exact absurd hh hverify
            · exact absurd (hun.trans hm.symm).symm (ha u hmem)
          · rintro ⟨u, hu⟩
            rw [hlogin] at hu
            cases hu
    · have hfind : find_user_by_username username (a :: l) =
          find_user_by_username username l := by
        simp [find_user_by_username, List.find?_cons_of_neg, hm]
      have hlogin : login_user hash username password (a :: l) =
          login_user hash username password l := by
        simp [login_user, hfind]
      obtain ⟨ih1, ih2⟩ := ih hl
      constructor
      · intro u hu
        rw [hlogin] at hu
        obtain ⟨hmem, h2, h3⟩ := ih1 u hu
        exact ⟨List.mem_cons_of_mem a hmem, h2, h3⟩
      · rw [hlogin]
        constructor
        · rintro ⟨u, hu, hun, hh⟩
          rcases List.mem_cons.mp hu with rfl | hmem
          · exact absurd hun hm
          · exact ih2.mp ⟨u, hmem, hun, hh⟩
        · intro hex
          obtain ⟨u, hu, hun, hh⟩ := ih2.mpr hex
          exact ⟨u, List.mem_cons_of_mem a hu, hun, hh⟩

/-- C6 witness: a concrete login with matching digest returns the account. -/
theorem C6_login_exact_match_witness :
    sampleUser ∈ [sampleUser] ∧ sampleUser.username = "alice" ∧
      (fun _ : String => "h1") "pw" = sampleUser.password_hash :=
  (C6_login_exact_match (fun _ => "h1") "alice" "pw" [sampleUser] (by simp)).1
    sampleUser (by decide)

/-! ### Helper lemmas: id assignment -/

theorem next_ticket_id_eq (tickets : List Ticket) :
    _next_ticket_id tickets = pyStrInt (max_numeric_id tickets + 1) := by
  cases tickets with
  | nil => decide
  | cons a l => simp [_next_ticket_id]

theorem next_user_id_eq (users : List User) :
    _next_user_id users = pyStrInt (max_numeric_user_id users + 1) := by
  cases users with
  | nil => decide
  | cons a l => simp [_next_user_id]

theorem foldl_max_numeric {β : Type} (f : β → Option Int) :
    ∀ (l : List β) (a : Int),
    l.foldl (fun max_id x => match f x with
      | some n => if n > max_id then n else max_id
      | none => max_id) a
    = (l.filterMap f).foldl (fun m n => max m n) a := by
  intro l
  induction l with
  | nil => intro a; rfl
  | cons x l ih =>
    intro a
    cases hp : f x with
    | none => simp [List.filterMap_cons, hp, ih]
    | some n =>
      rw [List.foldl_cons, List.filterMap_cons, hp]
      rw [ih, List.foldl_cons]
      congr 1
      rcases le_or_lt n a with h | h
      · show (if n > a then n else a) = a ⊔ n
        rw [if_neg (not_lt.2 h), max_eq_left h]
      · show (if n > a then n else a) = a ⊔ n
        rw [if_pos h, max_eq_right h.le]

theorem max_numeric_id_filterMap (tickets : List Ticket) :
    max_numeric_id tickets =
      (tickets.filterMap (fun t => pyParseInt t.id)).foldl (fun m n => max m n) 0 := by
  unfold max_numeric_id
  exact foldl_max_numeric (fun t => pyParseInt t.id) tickets 0

theorem max_numeric_user_id_filterMap (users : List User) :
    max_numeric_user_id users =
      (users.filterMap (fun u => pyParseInt u.id)).foldl (fun m n => max m n) 0 := by
  unfold max_numeric_user_id
  exact foldl_max_numeric (fun u => pyParseInt u.id) users 0

theorem max_numeric_id_append (ts : List Ticket) (t : Ticket) :
    max_numeric_id (ts ++ [t]) =
      (match pyParseInt t.id with
      | some n => if n > max_numeric_id ts then n else max_numeric_id ts
      | none => max_numeric_id ts) := by
  simp [max_numeric_id, List.foldl_append]

theorem max_numeric_id_snoc (ts : List Ticket) (t : Ticket) (k : Nat)
    (hid : t.id = pyStrNat (k + 1)) (hk : max_numeric_id ts = (k : Int)) :
    max_numeric_id (ts ++ [t]) = ((k + 1 : Nat) : Int) := by
  rw [max_numeric_id_append, hid, hk]
  have hp : pyParseInt (pyStrNat (k + 1)) = some ((k + 1 : Nat) : Int) :=
    pyParseInt_pyStrNat (k + 1)
  rw [hp]
  show (if ((k + 1 : Nat) : Int) > (k : Int) then ((k + 1 : Nat) : Int) else (k : Int)) =
    ((k + 1 : Nat) : Int)
  rw [if_pos (by push_cast; omega)]

theorem assigned_ids_eq (u : User) (ti di pi now : String)
    (h1 : 3 ≤ (sanitize_text_field ti 100).length)
    (h2 : 3 ≤ (sanitize_text_field di 500).length)
    (h3 : is_valid_priority (pyLower (pyStrip pi)) = true) :
    ∀ (N k : Nat) (ts : List Ticket), max_numeric_id ts = (k : Int) →
      assigned_ids u ti di pi now N ts =
        (List.range N).map (fun j => pyStrNat (k + j + 1)) := by
  intro N
  induction N with
  | zero =>
    intro k ts hk
    simp [assigned_ids]
  | succ N ih =>
    intro k ts hk
    have hc := create_ticket_some u ti di pi now ts h1 h2 h3
    have hid : _next_ticket_id ts = pyStrNat (k + 1) := by
      rw [next_ticket_id_eq, hk, pyStrInt_ofNat]
    simp only [assigned_ids, create_and_store, hc]
    rw [ih (k + 1) _ (max_numeric_id_snoc ts _ k hid hk)]
    rw [List.range_succ_eq_map, List.map_cons, List.map_map]
    have hfun : (fun j => pyStrNat (k + 1 + j + 1)) =
        ((fun j => pyStrNat (k + j + 1)) ∘ Nat.succ) := by
      funext j
      show pyStrNat (k + 1 + j + 1) = pyStrNat (k + (j + 1) + 1)
      congr 1
      omega
    rw [hfun]
    simpa using hid

/-- C5 (amended): the id assigned to a new record is the string form of
one plus the larger of zero and the maximum numeric value among existing
ids (ids that do not parse as integers are ignored; the running maximum
starts at zero, so negative numeric ids are also ignored), hence "1" for
an empty store; consequently, after N successful creates into a store
whose running maximum is zero (in particular one containing no numeric
ids), the assigned ids are "1" through "N" in assignment order. -/
theorem C5_monotonic_id_assignment :
    (∀ tickets : List Ticket, _next_ticket_id tickets =
      pyStrInt ((tickets.filterMap (fun t => pyParseInt t.id)).foldl
        (fun m n => max m n) 0 + 1)) ∧
    (∀ users : List User, _next_user_id users =
      pyStrInt ((users.filterMap (fun u => pyParseInt u.id)).foldl
        (fun m n => max m n) 0 + 1)) ∧
    (∀ (u : User) (ti di pi now : String) (N : Nat) (ts : List Ticket),
      3 ≤ (sanitize_text_field ti 100).length →
      3 ≤ (sanitize_text_field di 500).length →
      is_valid_priority (pyLower (pyStrip pi)) = true →
      max_numeric_id ts = 0 →
      assigned_ids u ti di pi now N ts =
        (List.range N).map (fun j => pyStrNat (j + 1))) := by
  refine ⟨?_, ?_, ?_⟩
  · intro tickets
    rw [next_ticket_id_eq, max_numeric_id_filterMap]
  · intro users
    rw [next_user_id_eq, max_numeric_user_id_filterMap]
  · intro u ti di pi now N ts h1 h2 h3 h0
    rw [assigned_ids_eq u ti di pi now h1 h2 h3 N 0 ts (by exact_mod_cast h0)]
    have hfun : (fun j => pyStrNat (0 + j + 1)) = (fun j : Nat => pyStrNat (j + 1)) := by
      funext j
      congr 1
      omega
    rw [hfun]

/-- C5 counterexample: a store whose only id is "-5" (which parses as the
integer -5) receives the id "1", not the string form of one plus the
maximum numeric id, which would be "-4". -/
theorem C5_monotonic_id_counterexample :
    [negIdTicket].filterMap (fun t => pyParseInt t.id) = [(-5 : Int)] ∧
    pyStrInt (-5 + 1) = "-4" ∧
    _next_ticket_id [negIdTicket] = "1" ∧
    ("1" : String) ≠ "-4" := by
  refine ⟨by decide, by decide, by decide, by decide⟩

/-- C5 witness: two creates into an empty store assign ids "1", "2". -/
theorem C5_monotonic_id_assignment_witness :
    assigned_ids sampleAgent "Printer broken" "It will not turn on" "high" "t0" 2 [] =
      (List.range 2).map (fun j => pyStrNat (j + 1)) :=
  C5_monotonic_id_assignment.2.2 sampleAgent "Printer broken" "It will not turn on"
    "high" "t0" 2 [] (by decide) (by decide) (by decide) (by decide)
